import Mathlib

/-!
Shallow embedding of the core of the `esc_validator` package (sheet locator,
overlap detector, proximity validator, line-style classifier) together with
proofs about the properties of those functions.

Conventions of the embedding:
* Python `int` becomes `Int`, Python `float` becomes `ℚ` (all float values in
  the embedded code are produced by exact arithmetic on integer inputs, except
  for square roots — see `sqrt_gt` below, which decides a comparison of a real
  square root exactly on the squared operands).
* Python dicts become functions (`String → Option _` for tables whose lookup
  can fail, `String → List _` for `dict.get(key, [])`).
* A Python function that can raise becomes `Option`-valued.
-/

set_option linter.unusedVariables false

namespace EscValidator

/-! ### String helpers

Embeddings of the Python primitives used by the source: substring containment
(`pat in s`), `str.upper()`, the regex character classes `\w`, `\s`, `\d`, and
decimal parsing of a digit string. -/

/-- Containment of `pat` as a contiguous sublist of `hay` (Python `pat in s`). -/
def containsSub (hay pat : List Char) : Bool :=
  match hay with
  | [] => pat.isEmpty
  | _ :: t => pat.isPrefixOf hay || containsSub t pat

/-- Python `pat in s` on strings. -/
def str_contains (s pat : String) : Bool :=
  containsSub s.toList pat.toList

/-- Python `s.upper()` (ASCII), written over the character list so that it
evaluates by kernel reduction. -/
def py_upper (s : String) : String :=
  String.mk (s.data.map Char.toUpper)

/-- Regex word character `\w` (ASCII). -/
def isWordChar (c : Char) : Bool :=
  c.isAlphanum || c = '_'

/-- Regex whitespace `\s` (ASCII): space, tab, newline, carriage return,
vertical tab, form feed. -/
def pySpace (c : Char) : Bool :=
  c = ' ' || c = '\t' || c = '\n' || c = '\r' || c = Char.ofNat 11 || c = Char.ofNat 12

/-- Decimal value of a digit list (Python `int(match.group(1))`). -/
def digitsToNat (ds : List Char) : Nat :=
  ds.foldl (fun n c => 10 * n + (c.toNat - 48)) 0

/-- Python `int(x)` on a rational: truncation toward zero. -/
def py_int (q : ℚ) : Int :=
  if q < 0 then ⌈q⌉ else ⌊q⌋

/-! ### Geometry primitives (`quality_checker.py`) -/

/-- Bounding box for a text element (`quality_checker.BoundingBox`).
The Python dataclass performs no validation of its fields. -/
structure BoundingBox where
  x : Int
  y : Int
  width : Int
  height : Int
deriving DecidableEq, Repr

/-- Center X coordinate (`x + width / 2`, float division). -/
def BoundingBox.center_x (b : BoundingBox) : ℚ :=
  (b.x : ℚ) + (b.width : ℚ) / 2

/-- Center Y coordinate (`y + height / 2`, float division). -/
def BoundingBox.center_y (b : BoundingBox) : ℚ :=
  (b.y : ℚ) + (b.height : ℚ) / 2

/-- Bounding box area (`width * height`). -/
def BoundingBox.area (b : BoundingBox) : Int :=
  b.width * b.height

/-- Text element with location and metadata (`quality_checker.TextElement`). -/
structure TextElement where
  text : String
  bbox : BoundingBox
  confidence : ℚ
deriving DecidableEq, Repr

/-- Detected overlap between two text elements (`quality_checker.OverlapIssue`). -/
structure OverlapIssue where
  text1 : String
  text2 : String
  overlap_area : Int
  overlap_percent : ℚ
  severity : String
  location : Int × Int
deriving DecidableEq, Repr

/-- Detected spatial relationship issue (`quality_checker.ProximityIssue`).
`nearest_distance_sq` holds the square of the Python `nearest_distance` float
(the embedding keeps squared distances, which determine the original exactly). -/
structure ProximityIssue where
  label_text : String
  label_type : String
  nearest_distance_sq : Option ℚ
  expected_max : ℚ
  severity : String
deriving DecidableEq, Repr

/-- Intersection rectangle of two bounding boxes
(`quality_checker.calculate_bbox_intersection`); `none` when the boxes do not
properly intersect (touching edges yield `none`). -/
def calculate_bbox_intersection (bbox1 bbox2 : BoundingBox) : Option BoundingBox :=
  let x_left := max bbox1.x bbox2.x
  let y_top := max bbox1.y bbox2.y
  let x_right := min (bbox1.x + bbox1.width) (bbox2.x + bbox2.width)
  let y_bottom := min (bbox1.y + bbox1.height) (bbox2.y + bbox2.height)
  if x_right ≤ x_left ∨ y_bottom ≤ y_top then none
  else some ⟨x_left, y_top, x_right - x_left, y_bottom - y_top⟩

/-- Percentage of the smaller box that is overlapped
(`quality_checker.calculate_overlap_percentage`). -/
def calculate_overlap_percentage (bbox1 bbox2 intersection : BoundingBox) : ℚ :=
  let smaller_area := min bbox1.area bbox2.area
  if smaller_area = 0 then 0
  else ((intersection.area : ℚ) / (smaller_area : ℚ)) * 100

/-- Overlap severity from the overlap percentage
(`quality_checker.classify_overlap_severity`). -/
def classify_overlap_severity (overlap_percent : ℚ) : String :=
  if 50 < overlap_percent then "critical"
  else if 20 < overlap_percent then "warning"
  else "minor"

/-- The `severity_priority` dict of `detect_overlapping_labels`; `none` models
the `KeyError` raised on an unknown key. -/
def severity_priority (s : String) : Option Nat :=
  if s = "critical" then some 3
  else if s = "warning" then some 2
  else if s = "minor" then some 1
  else none

/-- Body of the inner pair loop of `detect_overlapping_labels`: the issue
produced for the ordered pair `(elem1, elem2)`, if any.  The severity lookup
for the computed severity always succeeds (see `severity_priority_classify`),
so it is embedded with `getD 0`. -/
def overlap_issue_for (min_priority : Nat) (elem1 elem2 : TextElement) : Option OverlapIssue :=
  if elem1.text = elem2.text then none
  else
    match calculate_bbox_intersection elem1.bbox elem2.bbox with
    | none => none
    | some intersection =>
      let overlap_percent := calculate_overlap_percentage elem1.bbox elem2.bbox intersection
      let severity := classify_overlap_severity overlap_percent
      if min_priority ≤ (severity_priority severity).getD 0 then
        some { text1 := elem1.text
               text2 := elem2.text
               overlap_area := intersection.area
               overlap_percent := overlap_percent
               severity := severity
               location := (py_int intersection.center_x, py_int intersection.center_y) }
      else none

/-- The double loop of `detect_overlapping_labels`: every unordered pair,
of the already confidence-filtered elements, in enumeration order. -/
def overlap_pairs (min_priority : Nat) : List TextElement → List OverlapIssue
  | [] => []
  | elem1 :: rest =>
      rest.filterMap (overlap_issue_for min_priority elem1) ++ overlap_pairs min_priority rest

/-- Detect overlapping text labels (`quality_checker.detect_overlapping_labels`).
`none` models the `KeyError` on an invalid `min_severity` string. -/
def detect_overlapping_labels (text_elements : List TextElement)
    (min_confidence : ℚ) (min_severity : String) : Option (List OverlapIssue) :=
  match severity_priority min_severity with
  | none => none
  | some min_priority =>
    let valid_elements := text_elements.filter (fun e => min_confidence ≤ e.confidence)
    some (overlap_pairs min_priority valid_elements)

/-! ### Lemmas about the overlap detector -/

/-- `classify_overlap_severity` only ever produces the three severity strings. -/
theorem classify_overlap_severity_cases (p : ℚ) :
    classify_overlap_severity p = "critical" ∨ classify_overlap_severity p = "warning" ∨
      classify_overlap_severity p = "minor" := by
  unfold classify_overlap_severity
  split_ifs <;> simp

/-- The severity-priority lookup on a computed severity always succeeds. -/
theorem severity_priority_classify (p : ℚ) :
    severity_priority (classify_overlap_severity p) =
      some ((severity_priority (classify_overlap_severity p)).getD 0) := by
  rcases classify_overlap_severity_cases p with h | h | h <;>
    rw [h] <;> rfl

/-- A successful intersection has strictly positive dimensions, each bounded by
the corresponding dimension of both input boxes. -/
theorem intersection_dims {bbox1 bbox2 r : BoundingBox}
    (h : calculate_bbox_intersection bbox1 bbox2 = some r) :
    0 < r.width ∧ 0 < r.height ∧ r.width ≤ bbox1.width ∧ r.width ≤ bbox2.width ∧
      r.height ≤ bbox1.height ∧ r.height ≤ bbox2.height := by
  simp only [calculate_bbox_intersection] at h
  split at h
  · exact absurd h (by simp)
  · rename_i hcond
    push_neg at hcond
    injection h with h
    subst h
    simp only
    omega

/-- A successful intersection has positive area, at most the smaller input area. -/
theorem intersection_area_pos_le {bbox1 bbox2 r : BoundingBox}
    (h : calculate_bbox_intersection bbox1 bbox2 = some r) :
    0 < r.area ∧ r.area ≤ min bbox1.area bbox2.area := by
  obtain ⟨hw, hh, hw1, hw2, hh1, hh2⟩ := intersection_dims h
  unfold BoundingBox.area
  refine ⟨mul_pos hw hh, le_min ?_ ?_⟩
  · exact mul_le_mul hw1 hh1 (le_of_lt hh) (by omega)
  · exact mul_le_mul hw2 hh2 (le_of_lt hh) (by omega)

/-- The overlap percentage of a successful intersection lies in `(0, 100]`. -/
theorem overlap_percentage_bounds {bbox1 bbox2 r : BoundingBox}
    (h : calculate_bbox_intersection bbox1 bbox2 = some r) :
    0 < calculate_overlap_percentage bbox1 bbox2 r ∧
      calculate_overlap_percentage bbox1 bbox2 r ≤ 100 := by
  obtain ⟨hpos, hle⟩ := intersection_area_pos_le h
  have hsm : (0 : Int) < min bbox1.area bbox2.area := lt_of_lt_of_le hpos hle
  unfold calculate_overlap_percentage
  rw [if_neg (by omega : ¬ min bbox1.area bbox2.area = 0)]
  have hq : (0 : ℚ) < ((min bbox1.area bbox2.area : Int) : ℚ) := by exact_mod_cast hsm
  constructor
  · exact mul_pos (div_pos (by exact_mod_cast hpos) hq) (by norm_num)
  · have h1 : ((r.area : Int) : ℚ) / ((min bbox1.area bbox2.area : Int) : ℚ) ≤ 1 := by
      rw [div_le_one hq]
      exact_mod_cast hle
    nlinarith

/-- Anatomy of a pair issue: it is produced only for a distinct-text pair with a
successful intersection, and its fields are the computed values. -/
theorem overlap_issue_for_spec {min_priority : Nat} {elem1 elem2 : TextElement}
    {issue : OverlapIssue} (h : overlap_issue_for min_priority elem1 elem2 = some issue) :
    elem1.text ≠ elem2.text ∧
      ∃ r, calculate_bbox_intersection elem1.bbox elem2.bbox = some r ∧
        issue.text1 = elem1.text ∧ issue.text2 = elem2.text ∧
        issue.overlap_area = r.area ∧
        issue.overlap_percent = calculate_overlap_percentage elem1.bbox elem2.bbox r ∧
        issue.severity = classify_overlap_severity issue.overlap_percent ∧
        min_priority ≤ (severity_priority issue.severity).getD 0 := by
  simp only [overlap_issue_for] at h
  split at h
  · exact absurd h (by simp)
  · rename_i hne
    cases hint : calculate_bbox_intersection elem1.bbox elem2.bbox with
    | none => rw [hint] at h; exact absurd h (by simp)
    | some r =>
      rw [hint] at h
      simp only [] at h
      split at h
      · rename_i hpr
        injection h with h
        subst h
        exact ⟨hne, r, rfl, rfl, rfl, rfl, rfl, rfl, hpr⟩
      · exact absurd h (by simp)

/-- Every issue in `overlap_pairs` comes from some ordered pair of elements. -/
theorem mem_overlap_pairs {min_priority : Nat} {elems : List TextElement}
    {issue : OverlapIssue} (h : issue ∈ overlap_pairs min_priority elems) :
    ∃ e1 ∈ elems, ∃ e2 ∈ elems, overlap_issue_for min_priority e1 e2 = some issue := by
  induction elems with
  | nil => simp [overlap_pairs] at h
  | cons a rest ih =>
    simp only [overlap_pairs, List.mem_append, List.mem_filterMap] at h
    rcases h with ⟨e2, he2, heq⟩ | h
    · exact ⟨a, by simp, e2, by simp [he2], heq⟩
    · obtain ⟨e1, h1, e2, h2, heq⟩ := ih h
      exact ⟨e1, by simp [h1], e2, by simp [h2], heq⟩

/-- C4: the end-to-end overlap scenario.  Given exactly the labels
"EX. 635.0" at box (100, 100, 50, 20) and "PROP. 636.0" at (110, 105, 50, 20),
both above the default confidence floor of 40, the detector returns exactly one
finding, with severity "critical" and an overlap percentage of 60 > 50. -/
theorem overlap_end_to_end_scenario :
    detect_overlapping_labels
      [⟨"EX. 635.0", ⟨100, 100, 50, 20⟩, 95⟩, ⟨"PROP. 636.0", ⟨110, 105, 50, 20⟩, 92⟩]
      40 "minor"
    = some [⟨"EX. 635.0", "PROP. 636.0", 600, 60, "critical", (130, 112)⟩] ∧
    (50 : ℚ) < 60 := by
  constructor
  · norm_num [detect_overlapping_labels, severity_priority, overlap_pairs, List.filter,
      List.filterMap, overlap_issue_for, calculate_bbox_intersection,
      calculate_overlap_percentage, classify_overlap_severity, py_int,
      BoundingBox.center_x, BoundingBox.center_y, BoundingBox.area]
    decide
  · norm_num

/-- C7: the detector never emits a finding for a pair of labels whose boxes do
not properly intersect (touching edges or corners give a zero-area intersection
and `calculate_bbox_intersection` returns `none` for them), nor for a pair with
identical text: every emitted finding arises from a pair of input labels with
distinct texts whose boxes intersect with strictly positive area. -/
theorem detect_overlapping_labels_skip_rules
    (text_elements : List TextElement) (min_confidence : ℚ) (min_severity : String)
    (issues : List OverlapIssue)
    (hd : detect_overlapping_labels text_elements min_confidence min_severity = some issues)
    (issue : OverlapIssue) (hi : issue ∈ issues) :
    ∃ e1 ∈ text_elements, ∃ e2 ∈ text_elements,
      issue.text1 = e1.text ∧ issue.text2 = e2.text ∧ e1.text ≠ e2.text ∧
      ∃ r, calculate_bbox_intersection e1.bbox e2.bbox = some r ∧ 0 < r.area := by
  unfold detect_overlapping_labels at hd
  cases hp : severity_priority min_severity with
  | none => rw [hp] at hd; exact absurd hd (by simp)
  | some minp =>
    rw [hp] at hd
    simp only [Option.some.injEq] at hd
    subst hd
    obtain ⟨e1, h1, e2, h2, heq⟩ := mem_overlap_pairs hi
    obtain ⟨hne, r, hint, ht1, ht2, _⟩ := overlap_issue_for_spec heq
    exact ⟨e1, (List.mem_filter.mp h1).1, e2, (List.mem_filter.mp h2).1,
      ht1, ht2, hne, r, hint, (intersection_area_pos_le hint).1⟩

/-- C7 witness: the skip-rule provenance theorem applied to a concrete run that
produces one finding. -/
theorem detect_overlapping_labels_skip_rules_witness :
    ∃ e1 ∈ ([⟨"A 1", ⟨0, 0, 10, 10⟩, 90⟩, ⟨"B 2", ⟨2, 2, 10, 10⟩, 90⟩] : List TextElement),
    ∃ e2 ∈ ([⟨"A 1", ⟨0, 0, 10, 10⟩, 90⟩, ⟨"B 2", ⟨2, 2, 10, 10⟩, 90⟩] : List TextElement),
      (⟨"A 1", "B 2", 64, 64, "critical", (6, 6)⟩ : OverlapIssue).text1 = e1.text ∧
      (⟨"A 1", "B 2", 64, 64, "critical", (6, 6)⟩ : OverlapIssue).text2 = e2.text ∧
      e1.text ≠ e2.text ∧
      ∃ r, calculate_bbox_intersection e1.bbox e2.bbox = some r ∧ 0 < r.area :=
  detect_overlapping_labels_skip_rules
    [⟨"A 1", ⟨0, 0, 10, 10⟩, 90⟩, ⟨"B 2", ⟨2, 2, 10, 10⟩, 90⟩] 40 "minor"
    [⟨"A 1", "B 2", 64, 64, "critical", (6, 6)⟩]
    (by
      norm_num [detect_overlapping_labels, severity_priority, overlap_pairs, List.filter,
        List.filterMap, overlap_issue_for, calculate_bbox_intersection,
        calculate_overlap_percentage, classify_overlap_severity, py_int,
        BoundingBox.center_x, BoundingBox.center_y, BoundingBox.area]
      decide)
    ⟨"A 1", "B 2", 64, 64, "critical", (6, 6)⟩ (by simp)

/-- C10: output invariant of the overlap detector.  Every emitted finding has a
strictly positive intersection area, an overlap percentage in `(0, 100]`, and a
severity whose rank (minor = 1 < warning = 2 < critical = 3) is at least the
requested minimum severity rank. -/
theorem detect_overlapping_labels_output_invariant
    (text_elements : List TextElement) (min_confidence : ℚ) (min_severity : String)
    (min_priority : Nat) (issues : List OverlapIssue)
    (hp : severity_priority min_severity = some min_priority)
    (hd : detect_overlapping_labels text_elements min_confidence min_severity = some issues)
    (issue : OverlapIssue) (hi : issue ∈ issues) :
    0 < issue.overlap_area ∧ 0 < issue.overlap_percent ∧ issue.overlap_percent ≤ 100 ∧
      ∃ rank, severity_priority issue.severity = some rank ∧ min_priority ≤ rank := by
  unfold detect_overlapping_labels at hd
  rw [hp] at hd
  simp only [Option.some.injEq] at hd
  subst hd
  obtain ⟨e1, h1, e2, h2, heq⟩ := mem_overlap_pairs hi
  obtain ⟨hne, r, hint, ht1, ht2, harea, hperc, hsev, hrank⟩ := overlap_issue_for_spec heq
  obtain ⟨hap, hale⟩ := intersection_area_pos_le hint
  obtain ⟨hpp, hple⟩ := overlap_percentage_bounds hint
  refine ⟨harea ▸ hap, hperc ▸ hpp, hperc ▸ hple, ?_⟩
  refine ⟨(severity_priority issue.severity).getD 0, ?_, hrank⟩
  rw [hsev]
  exact severity_priority_classify issue.overlap_percent

/-- C10 witness: the output invariant applied to a concrete run with minimum
severity "warning" that produces one warning-level finding. -/
theorem detect_overlapping_labels_output_invariant_witness :
    0 < (⟨"C 1", "D 2", 30, 30, "warning", (5, 8)⟩ : OverlapIssue).overlap_area ∧
    0 < (⟨"C 1", "D 2", 30, 30, "warning", (5, 8)⟩ : OverlapIssue).overlap_percent ∧
    (⟨"C 1", "D 2", 30, 30, "warning", (5, 8)⟩ : OverlapIssue).overlap_percent ≤ 100 ∧
    ∃ rank, severity_priority (⟨"C 1", "D 2", 30, 30, "warning", (5, 8)⟩ : OverlapIssue).severity
        = some rank ∧ 2 ≤ rank :=
  detect_overlapping_labels_output_invariant
    [⟨"C 1", ⟨0, 0, 10, 10⟩, 90⟩, ⟨"D 2", ⟨0, 7, 10, 10⟩, 90⟩] 40 "warning" 2
    [⟨"C 1", "D 2", 30, 30, "warning", (5, 8)⟩]
    rfl
    (by
      norm_num [detect_overlapping_labels, severity_priority, overlap_pairs, List.filter,
        List.filterMap, overlap_issue_for, calculate_bbox_intersection,
        calculate_overlap_percentage, classify_overlap_severity, py_int,
        BoundingBox.center_x, BoundingBox.center_y, BoundingBox.area]
      decide)
    ⟨"C 1", "D 2", 30, 30, "warning", (5, 8)⟩ (by simp)

/-- C8 counterexample: the `BoundingBox` constructor performs no validation, so
a rectangle with negative width is accepted and the downstream `area` operation
runs on it, producing a negative area, rather than failing fast. -/
theorem boundingBox_no_validation_counterexample :
    (BoundingBox.mk 0 0 (-5) 10).area = -50 := by decide

/-- C8 (amended): construction of a bounding box is unchecked (negative widths
and heights are accepted and `area` runs on them, see the counterexample), but
any box with nonpositive width or height produces no intersection, so the
overlap percentage and severity computations never run on a malformed
intersection rectangle. -/
theorem malformed_bbox_never_intersects
    (bbox1 bbox2 : BoundingBox)
    (h : bbox1.width ≤ 0 ∨ bbox1.height ≤ 0 ∨ bbox2.width ≤ 0 ∨ bbox2.height ≤ 0) :
    calculate_bbox_intersection bbox1 bbox2 = none := by
  unfold calculate_bbox_intersection
  rw [if_pos]
  omega

/-- C8 witness: the amended theorem applied to a concrete negative-width box. -/
theorem malformed_bbox_never_intersects_witness :
    calculate_bbox_intersection ⟨0, 0, -5, 10⟩ ⟨0, 0, 10, 10⟩ = none :=
  malformed_bbox_never_intersects ⟨0, 0, -5, 10⟩ ⟨0, 0, 10, 10⟩ (Or.inl (by decide))

/-! ### Proximity validator (`quality_checker.py`) -/

/-- Classify label type based on text content (`quality_checker.classify_label_type`).
The elevation-number rule is Python
`text_upper.replace(".", "").replace("-", "").isdigit() and len(text_upper) >= 3`. -/
def classify_label_type (text : String) : Option String :=
  let u := py_upper text
  let stripped := u.toList.filter (fun c => c != '.' && c != '-')
  if str_contains u "SCE" || str_contains u "CONSTRUCTION ENTRANCE" then some "SCE"
  else if str_contains u "CONC" && str_contains u "WASH" then some "CONC WASH"
  else if str_contains u "WASHOUT" || str_contains u "WASH OUT" then some "CONC WASH"
  else if str_contains u "EXIST" || str_contains u "PROP" || str_contains u "CONTOUR" then
    some "contour"
  else if !stripped.isEmpty && stripped.all Char.isDigit && decide (3 ≤ u.length) then
    some "contour"
  else if ["ST", "STREET", "RD", "ROAD", "DR", "DRIVE", "WAY", "LN", "LANE", "AVE", "AVENUE"].any
      (fun sfx => str_contains u sfx) then
    some "street"
  else none

/-- The default per-type maximum distances (`quality_checker.PROXIMITY_RULES`),
as the dict-lookup function. -/
def PROXIMITY_RULES (label_type : String) : Option ℚ :=
  if label_type = "contour" then some 150
  else if label_type = "SCE" then some 200
  else if label_type = "CONC WASH" then some 250
  else if label_type = "storm_drain" then some 200
  else if label_type = "street" then some 300
  else none

/-- Square of the Euclidean distance between two points.  The Python
`euclidean_distance` returns the square root of this value; the embedding keeps
the square, which determines every comparison of the original exactly
(see `sqrt_gt_iff`). -/
def euclidean_distance_sq (point1 point2 : ℚ × ℚ) : ℚ :=
  (point1.1 - point2.1) ^ 2 + (point1.2 - point2.2) ^ 2

/-- Decides the comparison `Real.sqrt dsq > t` exactly on the squared operand
(`sqrt_gt_iff` proves the equivalence for `0 ≤ dsq`). -/
def sqrt_gt (dsq t : ℚ) : Bool :=
  decide (t < 0) || decide (t ^ 2 < dsq)

/-- `sqrt_gt` decides exactly the comparison the Python code performs on the
square root of the squared distance. -/
theorem sqrt_gt_iff (dsq t : ℚ) (h : 0 ≤ dsq) :
    sqrt_gt dsq t = true ↔ (t : ℝ) < Real.sqrt (dsq : ℝ) := by
  unfold sqrt_gt
  simp only [Bool.or_eq_true, decide_eq_true_eq]
  constructor
  · rintro (ht | ht)
    · exact lt_of_lt_of_le (by exact_mod_cast ht) (Real.sqrt_nonneg _)
    · exact Real.lt_sqrt_of_sq_lt (by exact_mod_cast ht)
  · intro ht
    by_cases h0 : t < 0
    · exact Or.inl h0
    · push_neg at h0
      right
      have h2 := (Real.lt_sqrt (by exact_mod_cast h0 : (0 : ℝ) ≤ (t : ℝ))).mp ht
      exact_mod_cast h2

/-- Squared distance from the label box center to the nearest feature
(`quality_checker.find_nearest_feature_distance`); `none` when no features
exist.  The Python function folds `min` over the square-root distances, which
equals the square root of this folded minimum since the root is monotone. -/
def find_nearest_feature_distance (label_bbox : BoundingBox)
    (feature_locations : List (ℚ × ℚ)) : Option ℚ :=
  match feature_locations with
  | [] => none
  | f :: fs =>
    let label_center := (label_bbox.center_x, label_bbox.center_y)
    some (fs.foldl (fun m p => min m (euclidean_distance_sq label_center p))
      (euclidean_distance_sq label_center f))

/-- Body of the per-element loop of `validate_label_proximity`: the issue, if
any, produced for one text element.  The Python truthiness test
`if nearest_distance and nearest_distance > max_distance` becomes
`nearest_sq ≠ 0 ∧ sqrt_gt nearest_sq max_distance` (the root is zero exactly
when its square is), and `1.5` is written `3 / 2`. -/
def proximity_issue_for (features : String → List (ℚ × ℚ))
    (proximity_rules : String → Option ℚ) (elem : TextElement) : Option ProximityIssue :=
  match classify_label_type elem.text with
  | none => none
  | some label_type =>
    match proximity_rules label_type with
    | none => none
    | some max_distance =>
      let relevant_features := features label_type
      if relevant_features.isEmpty then
        some ⟨elem.text, label_type, none, max_distance, "warning"⟩
      else
        match find_nearest_feature_distance elem.bbox relevant_features with
        | none => none
        | some nearest_sq =>
          if nearest_sq ≠ 0 ∧ sqrt_gt nearest_sq max_distance = true then
            some ⟨elem.text, label_type, some nearest_sq, max_distance,
              if sqrt_gt nearest_sq (max_distance * (3 / 2)) = true then "error" else "warning"⟩
          else none

/-- Validate that labels are near their corresponding features
(`quality_checker.validate_label_proximity`). -/
def validate_label_proximity (text_elements : List TextElement)
    (features : String → List (ℚ × ℚ)) (proximity_rules : String → Option ℚ)
    (min_confidence : ℚ) : List ProximityIssue :=
  (text_elements.filter (fun e => min_confidence ≤ e.confidence)).filterMap
    (proximity_issue_for features proximity_rules)

/-- Squared Euclidean distances are nonnegative. -/
theorem euclidean_distance_sq_nonneg (p q : ℚ × ℚ) : 0 ≤ euclidean_distance_sq p q := by
  unfold euclidean_distance_sq
  positivity

/-- The folded minimum of squared distances stays nonnegative. -/
theorem foldl_min_dist_nonneg (fs : List (ℚ × ℚ)) (c : ℚ × ℚ) (init : ℚ) (h : 0 ≤ init) :
    0 ≤ fs.foldl (fun m p => min m (euclidean_distance_sq c p)) init := by
  induction fs generalizing init with
  | nil => exact h
  | cons f fs ih => exact ih _ (le_min h (euclidean_distance_sq_nonneg _ _))

/-- A reported nearest squared distance is nonnegative. -/
theorem find_nearest_nonneg {bbox : BoundingBox} {fs : List (ℚ × ℚ)} {dsq : ℚ}
    (h : find_nearest_feature_distance bbox fs = some dsq) : 0 ≤ dsq := by
  cases fs with
  | nil => exact absurd h (by simp [find_nearest_feature_distance])
  | cons f fs =>
    simp only [find_nearest_feature_distance, Option.some.injEq] at h
    subst h
    exact foldl_min_dist_nonneg _ _ _ (euclidean_distance_sq_nonneg _ _)

/-- On a single confident element, validation reduces to the per-element step. -/
theorem validate_single (elem : TextElement) (features : String → List (ℚ × ℚ))
    (rules : String → Option ℚ) (min_confidence : ℚ)
    (hconf : min_confidence ≤ elem.confidence) :
    validate_label_proximity [elem] features rules min_confidence =
      (proximity_issue_for features rules elem).toList := by
  simp only [validate_label_proximity, List.filter, hconf, decide_True, List.filterMap]
  cases proximity_issue_for features rules elem <;> simp

/-- C3: proximity validation per label.  For a label meeting the confidence
floor whose classified type has a (nonnegative) entry `T` in the distance
table: (1) if zero features of that type exist, exactly one finding is
emitted, with null distance and severity "warning"; (2) otherwise, with `d`
the Euclidean distance from the label box center to the nearest feature of
that type (the square root of the reported squared distance `dsq`):
`d > 1.5·T` yields exactly one "error" finding, `T < d ≤ 1.5·T` yields exactly
one "warning" finding, and `d ≤ T` yields no finding. -/
theorem validate_label_proximity_spec
    (elem : TextElement) (features : String → List (ℚ × ℚ))
    (rules : String → Option ℚ) (min_confidence T : ℚ) (label_type : String)
    (hcls : classify_label_type elem.text = some label_type)
    (hrule : rules label_type = some T) (hT : 0 ≤ T)
    (hconf : min_confidence ≤ elem.confidence) :
    (features label_type = [] →
      validate_label_proximity [elem] features rules min_confidence =
        [⟨elem.text, label_type, none, T, "warning"⟩]) ∧
    (∀ dsq, find_nearest_feature_distance elem.bbox (features label_type) = some dsq →
      ((1.5 * (T : ℝ) < Real.sqrt (dsq : ℝ) →
          validate_label_proximity [elem] features rules min_confidence =
            [⟨elem.text, label_type, some dsq, T, "error"⟩]) ∧
       ((T : ℝ) < Real.sqrt (dsq : ℝ) → Real.sqrt (dsq : ℝ) ≤ 1.5 * (T : ℝ) →
          validate_label_proximity [elem] features rules min_confidence =
            [⟨elem.text, label_type, some dsq, T, "warning"⟩]) ∧
       (Real.sqrt (dsq : ℝ) ≤ (T : ℝ) →
          validate_label_proximity [elem] features rules min_confidence = []))) := by
  have hTR : (0 : ℝ) ≤ (T : ℝ) := by exact_mod_cast hT
  constructor
  · intro hempty
    rw [validate_single elem features rules min_confidence hconf]
    simp [proximity_issue_for, hcls, hrule, hempty]
  · intro dsq hfind
    have h0 : 0 ≤ dsq := find_nearest_nonneg hfind
    have h0R : (0 : ℝ) ≤ ((dsq : ℚ) : ℝ) := by exact_mod_cast h0
    have hne : (features label_type).isEmpty = false := by
      cases hfs : features label_type with
      | nil => rw [hfs] at hfind; exact absurd hfind (by simp [find_nearest_feature_distance])
      | cons f fs => simp
    refine ⟨?_, ?_, ?_⟩
    · intro hgt
      have hd0 : dsq ≠ 0 := by
        have hsq : (0 : ℝ) < Real.sqrt (dsq : ℝ) := lt_of_le_of_lt (by positivity) hgt
        have : (0 : ℚ) < dsq := by exact_mod_cast Real.sqrt_pos.mp hsq
        exact ne_of_gt this
      have hgtT : sqrt_gt dsq T = true := by
        rw [sqrt_gt_iff dsq T h0]
        nlinarith [hgt]
      have hgt15 : sqrt_gt dsq (T * (3 / 2)) = true := by
        rw [sqrt_gt_iff dsq (T * (3 / 2)) h0]
        push_cast
        nlinarith [hgt]
      rw [validate_single elem features rules min_confidence hconf]
      simp [proximity_issue_for, hcls, hrule, hne, hfind, hd0, hgtT, hgt15]
    · intro hgtT15 hle15
      have hd0 : dsq ≠ 0 := by
        have hsq : (0 : ℝ) < Real.sqrt (dsq : ℝ) := lt_of_le_of_lt hTR hgtT15
        have : (0 : ℚ) < dsq := by exact_mod_cast Real.sqrt_pos.mp hsq
        exact ne_of_gt this
      have hgtT : sqrt_gt dsq T = true := by
        rw [sqrt_gt_iff dsq T h0]
        exact hgtT15
      have hnot15 : sqrt_gt dsq (T * (3 / 2)) = false := by
        cases hb : sqrt_gt dsq (T * (3 / 2)) with
        | false => rfl
        | true =>
          have hx := (sqrt_gt_iff dsq (T * (3 / 2)) h0).mp hb
          push_cast at hx
          nlinarith [hle15]
      rw [validate_single elem features rules min_confidence hconf]
      simp [proximity_issue_for, hcls, hrule, hne, hfind, hd0, hgtT, hnot15]
    · intro hle
      have hgtF : sqrt_gt dsq T = false := by
        cases hb : sqrt_gt dsq T with
        | false => rfl
        | true =>
          have hx := (sqrt_gt_iff dsq T h0).mp hb
          nlinarith [hle]
      rw [validate_single elem features rules min_confidence hconf]
      simp [proximity_issue_for, hcls, hrule, hne, hfind, hgtF]

/-- C3 witness: the proximity theorem applied to a concrete label of type
"SCE" at squared distance 25 (distance 5) from the only feature, with
threshold 2; since 5 > 1.5 · 2 the run emits one "error" finding. -/
theorem validate_label_proximity_spec_witness :
    validate_label_proximity [⟨"SCE", ⟨0, 0, 2, 2⟩, 90⟩]
      (fun t => if t = "SCE" then [((4 : ℚ), (5 : ℚ))] else [])
      (fun t => if t = "SCE" then some 2 else none) 40 =
      [⟨"SCE", "SCE", some 25, 2, "error"⟩] :=
  ((validate_label_proximity_spec ⟨"SCE", ⟨0, 0, 2, 2⟩, 90⟩
      (fun t => if t = "SCE" then [((4 : ℚ), (5 : ℚ))] else [])
      (fun t => if t = "SCE" then some 2 else none) 40 2 "SCE"
      (by decide) rfl (by norm_num) (by norm_num)).2 25
      (by
        show find_nearest_feature_distance ⟨0, 0, 2, 2⟩ [((4 : ℚ), (5 : ℚ))] = some 25
        norm_num [find_nearest_feature_distance, euclidean_distance_sq,
          BoundingBox.center_x, BoundingBox.center_y])).1
    (by
      rw [show (((25 : ℚ) : ℝ)) = 5 ^ 2 by norm_num,
        Real.sqrt_sq (by norm_num : (0 : ℝ) ≤ 5)]
      norm_num)

/-! ### Sheet locator, strategy 1: PageLabels metadata (`extractor.py`) -/

/-- Priority of a decoded page label in `extractor.find_esc_in_page_labels`:
11 or 10 for "EROSION CONTROL" without "NOTES" (11 when also "(1 OF" or
"(1/"), 9 for "ESC" without "NOTES", 8 for "SEDIMENT CONTROL" without
"NOTES", 7 for the "E&SC" variants without "NOTES", and 0 when the label is
not an ESC sheet. -/
def sheet_priority (label : String) : Nat :=
  let label_upper := py_upper label
  if str_contains label_upper "EROSION CONTROL" && !str_contains label_upper "NOTES" then
    if str_contains label_upper "(1 OF" || str_contains label_upper "(1/" then 11 else 10
  else if str_contains label_upper "ESC" && !str_contains label_upper "NOTES" then 9
  else if str_contains label_upper "SEDIMENT CONTROL" && !str_contains label_upper "NOTES" then 8
  else if (str_contains label_upper "E&SC" || str_contains label_upper "E & SC" ||
      str_contains label_upper "E.S.C") && !str_contains label_upper "NOTES" then 7
  else 0

/-- Find the ESC sheet in the PageLabels metadata
(`extractor.find_esc_in_page_labels`), on the decoded `(pageIndex, label)`
table: the loop returns the page of the first label whose priority reaches 9
and otherwise falls through to "not found". -/
def find_esc_in_page_labels : List (Nat × String) → Option Nat
  | [] => none
  | (page_idx, label) :: rest =>
    if 9 ≤ sheet_priority label then some page_idx
    else find_esc_in_page_labels rest

/-- C1 counterexample: "SEDIMENT CONTROL" is a ranked match (priority 8), yet
the metadata lookup on a table containing only that label reports "not found"
instead of returning its page index 3 as the claim requires. -/
theorem find_esc_in_page_labels_counterexample :
    sheet_priority "SEDIMENT CONTROL" = 8 ∧
      find_esc_in_page_labels [(3, "SEDIMENT CONTROL")] = none := by decide

/-- C1 (amended): the metadata lookup returns the page index of the
first-encountered label whose priority is at least 9 (an "EROSION CONTROL" or
"ESC" form without "NOTES"); lower-priority ranked matches ("SEDIMENT
CONTROL" and the "E&SC" variants) never cause a return, and when no label
reaches priority 9 the lookup reports "not found" even though a ranked match
may exist.  Among the labels of priority at least 9 the first encountered
wins, even over a later, higher-priority label. -/
theorem find_esc_in_page_labels_spec (entries : List (Nat × String)) :
    find_esc_in_page_labels entries =
      (entries.find? (fun e => decide (9 ≤ sheet_priority e.2))).map Prod.fst := by
  induction entries with
  | nil => rfl
  | cons e rest ih =>
    rcases e with ⟨page_idx, label⟩
    by_cases h : 9 ≤ sheet_priority label
    · simp [find_esc_in_page_labels, List.find?, h]
    · simp only [find_esc_in_page_labels, if_neg h, ih, List.find?]
      rw [decide_eq_false h]

/-! ### Sheet locator, strategy 2: TOC page-number extraction (`extractor.py`) -/

/-- Strategy 1 of `extractor.extract_page_number_from_toc_line`: the regex
`\b(\d{1,3})\b\s*$`.  After the trailing whitespace the line must end in a
maximal run of one to three digits whose preceding character (if any) is not
a word character. -/
def trailing_number (line : List Char) : Option Nat :=
  let rl := line.reverse.dropWhile pySpace
  let digits := rl.takeWhile Char.isDigit
  let rest := rl.dropWhile Char.isDigit
  if 1 ≤ digits.length && digits.length ≤ 3 &&
      (rest.isEmpty || !isWordChar (rest.headD ' ')) then
    some (digitsToNat digits.reverse)
  else none

/-- Strategy 2: the regex `\b(\d{1,3})-\d{1,3}\b\s*$` — a page range at the
end of the line; the first number of the range is the result. -/
def trailing_range (line : List Char) : Option Nat :=
  let rl := line.reverse.dropWhile pySpace
  let digits2 := rl.takeWhile Char.isDigit
  match rl.dropWhile Char.isDigit with
  | '-' :: rest1 =>
    let digits1 := rest1.takeWhile Char.isDigit
    let rest := rest1.dropWhile Char.isDigit
    if 1 ≤ digits2.length && digits2.length ≤ 3 &&
        1 ≤ digits1.length && digits1.length ≤ 3 &&
        (rest.isEmpty || !isWordChar (rest.headD ' ')) then
      some (digitsToNat digits1.reverse)
    else none
  | _ => none

/-- One attempt of strategy 3 just after an opening parenthesis: one to three
digits immediately followed by a closing parenthesis. -/
def paren_digits (rest : List Char) : Option Nat :=
  let ds := rest.takeWhile Char.isDigit
  match rest.dropWhile Char.isDigit with
  | ')' :: _ =>
    if 1 ≤ ds.length && ds.length ≤ 3 then some (digitsToNat ds) else none
  | _ => none

/-- Strategy 3: the regex `\((\d{1,3})\)` — leftmost parenthesized number. -/
def paren_number : List Char → Option Nat
  | [] => none
  | '(' :: rest =>
    (match paren_digits rest with
     | some n => some n
     | none => paren_number rest)
  | _ :: rest => paren_number rest

/-- One attempt of strategy 4 after the PAGE/PG keyword: optional whitespace,
then one to three digits taken greedily (the regex has no trailing word
boundary, so "PAGE 1234" yields 123). -/
def page_digits (t : List Char) : Option Nat :=
  let ds := ((t.dropWhile pySpace).takeWhile Char.isDigit).take 3
  if ds.isEmpty then none else some (digitsToNat ds)

/-- Strategy 4: the regex `(?:PAGE|PG\.?)\s*(\d{1,3})`, scanned left to right
on the uppercased line (the Python search is case-insensitive). -/
def page_keyword_number : List Char → Option Nat
  | [] => none
  | c :: rest =>
    if ['P', 'A', 'G', 'E'].isPrefixOf (c :: rest) then
      (match page_digits ((c :: rest).drop 4) with
       | some n => some n
       | none => page_keyword_number rest)
    else if ['P', 'G', '.'].isPrefixOf (c :: rest) then
      (match page_digits ((c :: rest).drop 3) with
       | some n => some n
       | none => page_keyword_number rest)
    else if ['P', 'G'].isPrefixOf (c :: rest) then
      (match page_digits ((c :: rest).drop 2) with
       | some n => some n
       | none => page_keyword_number rest)
    else page_keyword_number rest

/-- Strategy 5: the regex `^\s*(\d{1,3})\s*$` on the following line. -/
def standalone_number (next_line : List Char) : Option Nat :=
  let a := next_line.dropWhile pySpace
  let ds := a.takeWhile Char.isDigit
  let rest := a.dropWhile Char.isDigit
  if 1 ≤ ds.length && ds.length ≤ 3 && rest.all pySpace then some (digitsToNat ds)
  else none

/-- Extract a page number from a TOC line
(`extractor.extract_page_number_from_toc_line`): the five strategies are tried
in the fixed order trailing integer, trailing page range, parenthesized
number, PAGE keyword, standalone number on the following line (the last one
only when the following line is nonempty, Python `if next_line:`), returning
on the first match. -/
def extract_page_number_from_toc_line (line : String) (next_line : String) : Option Nat :=
  match trailing_number line.data with
  | some n => some n
  | none =>
    match trailing_range line.data with
    | some n => some n
    | none =>
      match paren_number line.data with
      | some n => some n
      | none =>
        match page_keyword_number (py_upper line).data with
        | some n => some n
        | none =>
          if next_line = "" then none
          else standalone_number next_line.data

/-- C2: the page-range extraction is dead code.  On the TOC line
"EROSION CONTROL PLAN 26-28" the extractor returns 28: the trailing-integer
strategy, tried first, already matches the final number of the range (the
character before "28" is "-", a non-word character, so its word boundary
holds), while the claim — and the docstring of the Python function itself —
require 26, the first page of the range. -/
theorem extract_page_number_toc_range_bug :
    extract_page_number_from_toc_line "EROSION CONTROL PLAN 26-28" "" = some 28 := by decide

/-! ### Sheet locator, strategy 3: scored full-document scan (`extractor.py`) -/

/-- Tail of the sheet-number regex after the keyword and optional separator:
at least one digit, ending at a word boundary. -/
def digits_then_boundary (l : List Char) : Bool :=
  match l with
  | [] => false
  | c :: rest =>
    c.isDigit &&
      (match rest.dropWhile Char.isDigit with
       | [] => true
       | d :: _ => !isWordChar d)

/-- One attempt of the regex `\b(ESC|EC)[-\s]?\d+\b` at a position with a word
boundary before it: the keyword, optionally a single `-` or whitespace
separator, then digits ending at a word boundary. -/
def esc_number_at (l : List Char) : Bool :=
  let tail_check := fun (t : List Char) =>
    (match t with
     | c :: rest => (c == '-' || pySpace c) && digits_then_boundary rest
     | [] => false) || digits_then_boundary t
  if ['E', 'S', 'C'].isPrefixOf l then tail_check (l.drop 3)
  else if ['E', 'C'].isPrefixOf l then tail_check (l.drop 2)
  else false

/-- Existence of a match of `\b(ESC|EC)[-\s]?\d+\b` (`re.search`).  The first
argument records whether the previous character is a word character, so that
the leading word boundary can be checked at each position. -/
def has_esc_number : Bool → List Char → Bool
  | _, [] => false
  | prev_word, c :: rest =>
    (!prev_word && esc_number_at (c :: rest)) || has_esc_number (isWordChar c) rest

/-- After a keyword: one or more whitespace characters, then the word `w`;
returns the remaining characters on success. -/
def ws_then (w : List Char) (t : List Char) : Option (List Char) :=
  match t with
  | c :: rest =>
    if pySpace c then
      let t2 := rest.dropWhile pySpace
      if w.isPrefixOf t2 then some (t2.drop w.length) else none
    else none
  | [] => none

/-- One attempt of `\b(ESC|EROSION|SEDIMENT)\s+CONTROL\s+NOTES\b` at a
position with a word boundary before it. -/
def control_notes_at (l : List Char) : Bool :=
  let after_kw :=
    if ['E', 'S', 'C'].isPrefixOf l then some (l.drop 3)
    else if ['E', 'R', 'O', 'S', 'I', 'O', 'N'].isPrefixOf l then some (l.drop 7)
    else if ['S', 'E', 'D', 'I', 'M', 'E', 'N', 'T'].isPrefixOf l then some (l.drop 8)
    else none
  match after_kw with
  | none => false
  | some t =>
    match ws_then ['C', 'O', 'N', 'T', 'R', 'O', 'L'] t with
    | none => false
    | some t2 =>
      match ws_then ['N', 'O', 'T', 'E', 'S'] t2 with
      | none => false
      | some t3 =>
        match t3 with
        | [] => true
        | d :: _ => !isWordChar d

/-- Existence of a match of `\b(ESC|EROSION|SEDIMENT)\s+CONTROL\s+NOTES\b`. -/
def has_control_notes : Bool → List Char → Bool
  | _, [] => false
  | prev_word, c :: rest =>
    (!prev_word && control_notes_at (c :: rest)) || has_control_notes (isWordChar c) rest

/-- Additive page score of locator strategy 3 (`extractor.find_esc_sheet`,
scoring phase): high-value indicators are worth 5 points, medium-high 3,
medium 2, low 1. -/
def page_score (text : String) : Nat :=
  let text_upper := py_upper text
  let u := text_upper.data
  let c := fun pat => str_contains text_upper pat
  (if c "ESC" && c "PLAN" then 5 else 0) +
  (if c "EROSION AND SEDIMENT CONTROL PLAN" then 5 else 0) +
  (if has_esc_number false u then 5 else 0) +
  (if c "ESC" && c "NOTES" then 5 else 0) +
  (if has_control_notes false u then 5 else 0) +
  (if c "EROSION CONTROL" && !c "EROSION AND SEDIMENT CONTROL" then 3 else 0) +
  (if c "SEDIMENT CONTROL" && !c "EROSION AND SEDIMENT CONTROL" then 3 else 0) +
  (if c "SILT FENCE" then 2 else 0) +
  (if c "CONSTRUCTION ENTRANCE" || c "STABILIZED CONSTRUCTION ENTRANCE" then 2 else 0) +
  (if c "CONCRETE WASHOUT" || c "WASHOUT" then 2 else 0) +
  (if c "SWPPP" then 2 else 0) +
  (if c "BMP" && (c "EROSION" || c "SEDIMENT") then 2 else 0) +
  (if c "EROSION" then 1 else 0) +
  (if c "SEDIMENT" then 1 else 0)

/-- The best-score loop of `find_esc_sheet` strategy 3: running best page and
best score over the page texts, updated only on a strict improvement. -/
def scan_pages : List String → Nat → Option Nat → Nat → Option Nat × Nat
  | [], _, best_page, best_score => (best_page, best_score)
  | p :: rest, idx, best_page, best_score =>
    let score := page_score p
    if best_score < score then scan_pages rest (idx + 1) (some idx) score
    else scan_pages rest (idx + 1) best_page best_score

/-- Locator strategy 3 (`extractor.find_esc_sheet`, scoring phase): scan every
page, track the single highest-scoring page, and accept it only when its
score reaches the fixed threshold 8. -/
def find_esc_scored_scan (pages : List String) : Option Nat :=
  let r := scan_pages pages 0 none 0
  if 8 ≤ r.2 then r.1 else none

/-- Invariant of the best-score loop: the final score is the running maximum,
and the final best page is either the initial one (when nothing improved on
the initial score) or the earliest page attaining the final score. -/
theorem scan_pages_spec (pages : List String) : ∀ (idx : Nat) (bp : Option Nat) (bs : Nat),
    (scan_pages pages idx bp bs).2 = (pages.map page_score).foldl max bs ∧
    (((scan_pages pages idx bp bs).2 = bs ∧ (scan_pages pages idx bp bs).1 = bp) ∨
      (bs < (scan_pages pages idx bp bs).2 ∧
        ∃ k, k < pages.length ∧ (scan_pages pages idx bp bs).1 = some (idx + k) ∧
          page_score (pages.getD k "") = (scan_pages pages idx bp bs).2 ∧
          ∀ j, j < k → page_score (pages.getD j "") < (scan_pages pages idx bp bs).2)) := by
  induction pages with
  | nil => exact fun idx bp bs => ⟨rfl, Or.inl ⟨rfl, rfl⟩⟩
  | cons p rest ih =>
    intro idx bp bs
    simp only [scan_pages, List.map_cons, List.foldl_cons]
    by_cases h : bs < page_score p
    · rw [if_pos h]
      obtain ⟨h2, hcase⟩ := ih (idx + 1) (some idx) (page_score p)
      have hmax : max bs (page_score p) = page_score p := max_eq_right h.le
      refine ⟨by rw [h2, hmax], Or.inr ?_⟩
      rcases hcase with ⟨he, hp⟩ | ⟨hlt, k, hk, hp, hs, hall⟩
      · refine ⟨by rw [he]; exact h, 0, by simp, by simpa using hp, by simpa using he.symm,
          by omega⟩
      · refine ⟨lt_trans h hlt, k + 1, by simpa using hk, ?_, by simpa using hs, ?_⟩
        · rw [hp]; congr 1; omega
        · intro j hj
          cases j with
          | zero => simpa using hlt
          | succ j => exact hall j (by omega)
    · rw [if_neg h]
      obtain ⟨h2, hcase⟩ := ih (idx + 1) bp bs
      have hmax : max bs (page_score p) = bs := max_eq_left (not_lt.mp h)
      refine ⟨by rw [h2, hmax], ?_⟩
      rcases hcase with ⟨he, hp⟩ | ⟨hlt, k, hk, hp, hs, hall⟩
      · exact Or.inl ⟨he, hp⟩
      · refine Or.inr ⟨hlt, k + 1, by simpa using hk, ?_, by simpa using hs, ?_⟩
        · rw [hp]; congr 1; omega
        · intro j hj
          cases j with
          | zero => simpa using lt_of_le_of_lt (not_lt.mp h) hlt
          | succ j => exact hall j (by omega)

/-- C5: the scored full-document scan.  With `m` the maximum additive page
score over the document, the scan returns the earliest page achieving `m`
whenever `8 ≤ m` (the strict comparison against the running best breaks ties
in favor of the first-encountered page), and reports "not found" whenever
`m < 8`. -/
theorem find_esc_scored_scan_spec (pages : List String) (m : Nat)
    (hm : (pages.map page_score).foldl max 0 = m) :
    (8 ≤ m → ∃ k, k < pages.length ∧ find_esc_scored_scan pages = some k ∧
      page_score (pages.getD k "") = m ∧ ∀ j, j < k → page_score (pages.getD j "") < m) ∧
    (m < 8 → find_esc_scored_scan pages = none) := by
  obtain ⟨h2, hcase⟩ := scan_pages_spec pages 0 none 0
  rw [hm] at h2
  constructor
  · intro h8
    rcases hcase with ⟨he, _⟩ | ⟨_, k, hk, hp, hs, hall⟩
    · omega
    · refine ⟨k, hk, ?_, by rw [hs, h2], fun j hj => by rw [← h2]; exact hall j hj⟩
      simp only [find_esc_scored_scan]
      rw [if_pos (by omega), hp]
      congr 1
      omega
  · intro hlt8
    simp only [find_esc_scored_scan]
    rw [if_neg (by omega)]

/-- C5 witness: the scan theorem applied to a two-page document whose second
page scores 17 (above threshold 8), so the scan returns page index 1. -/
theorem find_esc_scored_scan_spec_witness :
    ∃ k, k < ([" ", "EROSION AND SEDIMENT CONTROL PLAN ESC-1"] : List String).length ∧
      find_esc_scored_scan [" ", "EROSION AND SEDIMENT CONTROL PLAN ESC-1"] = some k ∧
      page_score (([" ", "EROSION AND SEDIMENT CONTROL PLAN ESC-1"] : List String).getD k "") = 17 ∧
      ∀ j, j < k →
        page_score (([" ", "EROSION AND SEDIMENT CONTROL PLAN ESC-1"] : List String).getD j "") < 17 :=
  (find_esc_scored_scan_spec [" ", "EROSION AND SEDIMENT CONTROL PLAN ESC-1"] 17
    (by decide)).1 (by decide)

/-! ### Line style classification (`symbol_detector.py`) -/

/-- Maximum of the sampled intensities (`intensities.max()`; the list is
nonempty whenever this is used, after the length guard). -/
def max_intensity : List ℚ → ℚ
  | [] => 0
  | x :: xs => xs.foldl max x

/-- Gap flags of the samples: normalize to the unit range when the maximum
exceeds 1 (`intensities / 255.0`), then binarize against the fixed threshold
0.5 (`gaps = intensities < threshold`). -/
def line_gaps (intensities : List ℚ) : List Bool :=
  let normalized :=
    if 1 < max_intensity intensities then intensities.map (fun v => v / 255)
    else intensities
  normalized.map (fun v => decide (v < 1 / 2))

/-- Number of gap-fill transitions (`np.sum(np.abs(np.diff(gaps)))`): the
count of adjacent unequal flags. -/
def count_transitions : List Bool → Nat
  | [] => 0
  | [_] => 0
  | a :: b :: rest => (if a = b then 0 else 1) + count_transitions (b :: rest)

/-- Fraction of non-gap samples (`np.sum(~gaps) / len(gaps)`). -/
def line_coverage (intensities : List ℚ) : ℚ :=
  let gaps := line_gaps intensities
  (gaps.count false : ℚ) / (gaps.length : ℚ)

/-- Classify a line as solid or dashed from the pixel intensities sampled at
its in-bounds sample points (`symbol_detector.classify_line_type`; the
geometric sampling and bounds clipping produce the input list).  Returns the
style together with its confidence. -/
def classify_line_type (intensities : List ℚ) : String × ℚ :=
  if intensities.length < 5 then ("unknown", 0)
  else
    let coverage := line_coverage intensities
    let num_transitions := count_transitions (line_gaps intensities)
    if 4 / 5 < coverage ∧ num_transitions < 4 then ("solid", min 1 coverage)
    else if 3 / 10 ≤ coverage ∧ 4 ≤ num_transitions then
      ("dashed", min 1 ((num_transitions : ℚ) / 10))
    else ("unknown", 0)

/-- C6: for a segment with at least 5 in-bounds sample points, with coverage
the fraction of non-gap samples and `t` the number of gap-fill transitions,
the segment classifies as "solid" iff coverage > 0.8 and t < 4, as "dashed"
iff coverage ≥ 0.3 and t ≥ 4, and as "unknown" otherwise; in particular a
fully-continuous line (coverage 1, t = 0) is solid and an alternating line
with at least four transitions at about half coverage is dashed (see the
witness). -/
theorem classify_line_type_spec (intensities : List ℚ) (h5 : 5 ≤ intensities.length) :
    ((classify_line_type intensities).1 = "solid" ↔
      4 / 5 < line_coverage intensities ∧ count_transitions (line_gaps intensities) < 4) ∧
    ((classify_line_type intensities).1 = "dashed" ↔
      3 / 10 ≤ line_coverage intensities ∧ 4 ≤ count_transitions (line_gaps intensities)) ∧
    ((classify_line_type intensities).1 = "unknown" ↔
      ¬(4 / 5 < line_coverage intensities ∧ count_transitions (line_gaps intensities) < 4) ∧
      ¬(3 / 10 ≤ line_coverage intensities ∧ 4 ≤ count_transitions (line_gaps intensities))) := by
  have hnot : ¬ intensities.length < 5 := by omega
  simp only [classify_line_type, if_neg hnot]
  by_cases h1 : 4 / 5 < line_coverage intensities ∧
      count_transitions (line_gaps intensities) < 4
  · rw [if_pos h1]
    exact ⟨iff_of_true rfl h1,
      iff_of_false (by decide : ¬ ("solid" : String) = "dashed")
        (fun hc => absurd h1.2 (by omega)),
      iff_of_false (by decide : ¬ ("solid" : String) = "unknown") (fun hc => hc.1 h1)⟩
  · rw [if_neg h1]
    by_cases h2 : 3 / 10 ≤ line_coverage intensities ∧
        4 ≤ count_transitions (line_gaps intensities)
    · rw [if_pos h2]
      exact ⟨iff_of_false (by decide : ¬ ("dashed" : String) = "solid") h1, iff_of_true rfl h2,
        iff_of_false (by decide : ¬ ("dashed" : String) = "unknown") (fun hc => hc.2 h2)⟩
    · rw [if_neg h2]
      exact ⟨iff_of_false (by decide : ¬ ("unknown" : String) = "solid") h1,
        iff_of_false (by decide : ¬ ("unknown" : String) = "dashed") h2,
        iff_of_true rfl ⟨h1, h2⟩⟩

/-- C6 witness: a fully-continuous sample sequence classifies as solid, and an
alternating sequence with six transitions at coverage 5/8 classifies as
dashed. -/
theorem classify_line_type_spec_witness :
    (classify_line_type [1, 1, 1, 1, 1]).1 = "solid" ∧
    (classify_line_type [1, 0, 1, 0, 1, 0, 1, 1]).1 = "dashed" :=
  ⟨((classify_line_type_spec [1, 1, 1, 1, 1] (by decide)).1).mpr
    (by
      constructor
      · show (4 / 5 : ℚ) < line_coverage [1, 1, 1, 1, 1]
        norm_num [line_coverage, line_gaps, max_intensity, List.foldl, List.count]
      · norm_num [count_transitions, line_gaps, max_intensity, List.foldl]),
   (((classify_line_type_spec [1, 0, 1, 0, 1, 0, 1, 1] (by decide)).2).1).mpr
    (by
      constructor
      · show (3 / 10 : ℚ) ≤ line_coverage [1, 0, 1, 0, 1, 0, 1, 1]
        norm_num [line_coverage, line_gaps, max_intensity, List.foldl, List.count]
      · norm_num [count_transitions, line_gaps, max_intensity, List.foldl])⟩

end EscValidator
